import Mathlib

/-!
Shallow embedding of the zetsubou python-sdk (src/zetsubou) in Lean 4,
with theorems settling the frozen claims about its transport retry logic,
job polling, model parsing, upload preparation, and service error paths.

Modelling conventions:
- HTTP responses are modelled by the fields the client actually reads:
  the status code, the parsed error payload (the result of
  _parse_error_response, which never fails), and the Retry-After header
  modelled as its parsed integer value when present.
- The network is a function from the attempt index to the response
  received on that attempt.
- while-loops are embedded as fuel-indexed recursion; the fuel-exhausted
  case of the transport loop corresponds to the unreachable final raise
  after the for-loop in ZetsubouClient._make_request.
- Python exceptions become Except results; time.sleep calls are recorded
  in an explicit trace together with the number of requests performed.
-/

namespace Zetsubou

/-- Parsed error payload, the part of _parse_error_response output that the
    client reads back (error_data.get with a default). -/
structure ErrorData where
  message : Option String
deriving Repr, DecidableEq

/-- What _make_request reads from an HTTP response: the status code, the
    parsed error payload, and the Retry-After header as an integer. -/
structure Response where
  status : Nat
  errorData : ErrorData
  retryAfter : Option Int
deriving Repr, DecidableEq

/-- The exception hierarchy of exceptions.py, restricted to the carried data. -/
inductive SdkError where
  | validation (message : String) (data : ErrorData)
  | authentication (message : String) (data : ErrorData)
  | notFound (message : String) (data : ErrorData)
  | rateLimit (message : String) (data : ErrorData) (retry_after : Int)
  | serverError (message : String) (data : ErrorData)
  | zetsubou (message : String) (data : Option ErrorData)
deriving Repr, DecidableEq

instance : DecidableEq (Except SdkError Response) := fun a b =>
  match a, b with
  | .ok x, .ok y => if h : x = y then .isTrue (by rw [h]) else .isFalse (by intro hc; cases hc; exact h rfl)
  | .error x, .error y => if h : x = y then .isTrue (by rw [h]) else .isFalse (by intro hc; cases hc; exact h rfl)
  | .ok _, .error _ => .isFalse (by intro hc; cases hc)
  | .error _, .ok _ => .isFalse (by intro hc; cases hc)

/-- Result of one call to _make_request: the returned response or raised
    exception, the number of HTTP requests performed, and the trace of
    backoff sleeps (in seconds, in order). -/
structure RequestOutcome where
  result : Except SdkError Response
  attempts : Nat
  sleeps : List Nat
deriving DecidableEq

/-- error_data.get of the message key with a default. -/
def getMsg (d : ErrorData) (dflt : String) : String := d.message.getD dflt

/-- The body of the for-loop of ZetsubouClient._make_request, one level per
    iteration; a is the attempt index, fuel the remaining iterations of
    range(retry_attempts + 1).  The fuel-zero case is the raise after the
    loop, reachable in the source only via retried exception paths. -/
def requestLoop (ra : Nat) (resp : Nat → Response) : Nat → Nat → RequestOutcome
  | 0, _ =>
    ⟨.error (.zetsubou ("Request failed after " ++ toString ra ++ " retries: None") none), 0, []⟩
  | fuel + 1, a =>
    let r := resp a
    if r.status = 200 ∨ r.status = 201 ∨ r.status = 204 then
      ⟨.ok r, 1, []⟩
    else if r.status = 400 then
      ⟨.error (.validation (getMsg r.errorData "Validation error") r.errorData), 1, []⟩
    else if r.status = 401 then
      ⟨.error (.authentication (getMsg r.errorData "Authentication failed") r.errorData), 1, []⟩
    else if r.status = 404 then
      ⟨.error (.notFound (getMsg r.errorData "Resource not found") r.errorData), 1, []⟩
    else if r.status = 429 then
      ⟨.error (.rateLimit (getMsg r.errorData "Rate limit exceeded") r.errorData
                (r.retryAfter.getD 60)), 1, []⟩
    else if 500 ≤ r.status ∧ r.status < 600 then
      if a < ra then
        let rest := requestLoop ra resp fuel (a + 1)
        ⟨rest.result, rest.attempts + 1, 2 ^ a :: rest.sleeps⟩
      else
        ⟨.error (.serverError (getMsg r.errorData "Server error") r.errorData), 1, []⟩
    else
      ⟨.error (.zetsubou ("Unexpected status code " ++ toString r.status ++ ": " ++
                getMsg r.errorData "Unknown error") (some r.errorData)), 1, []⟩

/-- ZetsubouClient._make_request: run the retry loop for retry_attempts + 1
    iterations starting at attempt 0. -/
def ZetsubouClient.make_request (ra : Nat) (resp : Nat → Response) : RequestOutcome :=
  requestLoop ra resp (ra + 1) 0

/-- A constant response source with the given status, message and no header. -/
def constResp (s : Nat) : Nat → Response := fun _ => ⟨s, ⟨some "boom"⟩, none⟩

/-- A constant 429 response source carrying a Retry-After header of 120. -/
def resp429hdr : Nat → Response := fun _ => ⟨429, ⟨some "slow down"⟩, some 120⟩

theorem requestLoop_5xx_last (ra : Nat) (resp : Nat → Response) (fuel a : Nat)
    (h5 : 500 ≤ (resp a).status ∧ (resp a).status < 600) (hge : ra ≤ a) :
    requestLoop ra resp (fuel + 1) a =
      ⟨.error (.serverError (getMsg (resp a).errorData "Server error") (resp a).errorData),
       1, []⟩ := by
  simp only [requestLoop]
  rw [if_neg (by omega), if_neg (by omega), if_neg (by omega), if_neg (by omega),
      if_neg (by omega), if_pos (by omega), if_neg (by omega)]

theorem requestLoop_5xx_step (ra : Nat) (resp : Nat → Response) (fuel a : Nat)
    (h5 : 500 ≤ (resp a).status ∧ (resp a).status < 600) (hlt : a < ra) :
    requestLoop ra resp (fuel + 1) a =
      ⟨(requestLoop ra resp fuel (a + 1)).result,
       (requestLoop ra resp fuel (a + 1)).attempts + 1,
       2 ^ a :: (requestLoop ra resp fuel (a + 1)).sleeps⟩ := by
  simp only [requestLoop]
  rw [if_neg (by omega), if_neg (by omega), if_neg (by omega), if_neg (by omega),
      if_neg (by omega), if_pos (by omega), if_pos hlt]

theorem requestLoop_all_5xx (ra : Nat) (resp : Nat → Response)
    (h : ∀ n, 500 ≤ (resp n).status ∧ (resp n).status < 600) :
    ∀ f a, a + f = ra →
      requestLoop ra resp (f + 1) a =
        ⟨.error (.serverError (getMsg (resp ra).errorData "Server error") (resp ra).errorData),
         f + 1, (List.range' a f).map (fun k => 2 ^ k)⟩ := by
  intro f
  induction f with
  | zero =>
    intro a ha
    have ha' : a = ra := by omega
    subst ha'
    rw [requestLoop_5xx_last a resp 0 a (h a) (Nat.le_refl a)]
    simp
  | succ f ih =>
    intro a ha
    rw [requestLoop_5xx_step ra resp (f + 1) a (h a) (by omega), ih (a + 1) (by omega)]
    simp [List.range'_succ]

/-- C1: when every attempt receives a 5xx response, _make_request performs
    exactly retry_attempts + 1 request attempts, sleeps 2 ^ attempt seconds
    between consecutive attempts with attempt starting at 0 (a strictly
    increasing sequence of delays), and finally raises ServerError carrying
    the error detail parsed from the last response. -/
theorem claim_C1_server_error_retry_budget (ra : Nat) (resp : Nat → Response)
    (h : ∀ n, 500 ≤ (resp n).status ∧ (resp n).status < 600) :
    ZetsubouClient.make_request ra resp =
      ⟨.error (.serverError (getMsg (resp ra).errorData "Server error") (resp ra).errorData),
       ra + 1, (List.range ra).map (fun k => 2 ^ k)⟩ ∧
    (ZetsubouClient.make_request ra resp).sleeps.Pairwise (· < ·) := by
  have hmain := requestLoop_all_5xx ra resp h ra 0 (by omega)
  have h1 : ZetsubouClient.make_request ra resp =
      ⟨.error (.serverError (getMsg (resp ra).errorData "Server error") (resp ra).errorData),
       ra + 1, (List.range ra).map (fun k => 2 ^ k)⟩ := by
    rw [ZetsubouClient.make_request, List.range_eq_range']
    exact hmain
  refine ⟨h1, ?_⟩
  rw [h1]
  exact List.Pairwise.map (fun k => 2 ^ k)
    (fun a b hab => Nat.pow_lt_pow_right (by omega) hab) (List.pairwise_lt_range ra)

theorem claim_C1_witness :
    ZetsubouClient.make_request 3 (constResp 500) =
      ⟨.error (.serverError "boom" ⟨some "boom"⟩), 4, [1, 2, 4]⟩ :=
  (claim_C1_server_error_retry_budget 3 (constResp 500)
    (fun _ => ⟨(by decide : (500 : Nat) ≤ 500), (by decide : (500 : Nat) < 600)⟩)).1

/-- C2: a 400, 401, 404 or 429 response makes _make_request raise the
    correspondingly typed error after exactly one request attempt, with no
    retry and no backoff sleep. -/
theorem claim_C2_client_errors_no_retry (ra : Nat) (resp : Nat → Response) :
    ((resp 0).status = 400 →
      ZetsubouClient.make_request ra resp =
        ⟨.error (.validation (getMsg (resp 0).errorData "Validation error")
          (resp 0).errorData), 1, []⟩) ∧
    ((resp 0).status = 401 →
      ZetsubouClient.make_request ra resp =
        ⟨.error (.authentication (getMsg (resp 0).errorData "Authentication failed")
          (resp 0).errorData), 1, []⟩) ∧
    ((resp 0).status = 404 →
      ZetsubouClient.make_request ra resp =
        ⟨.error (.notFound (getMsg (resp 0).errorData "Resource not found")
          (resp 0).errorData), 1, []⟩) ∧
    ((resp 0).status = 429 →
      ZetsubouClient.make_request ra resp =
        ⟨.error (.rateLimit (getMsg (resp 0).errorData "Rate limit exceeded")
          (resp 0).errorData ((resp 0).retryAfter.getD 60)), 1, []⟩) := by
  refine ⟨fun h => ?_, fun h => ?_, fun h => ?_, fun h => ?_⟩ <;>
    simp [ZetsubouClient.make_request, requestLoop, h]

theorem claim_C2_witness :
    ZetsubouClient.make_request 3 (constResp 400) =
      ⟨.error (.validation "boom" ⟨some "boom"⟩), 1, []⟩ ∧
    ZetsubouClient.make_request 3 (constResp 401) =
      ⟨.error (.authentication "boom" ⟨some "boom"⟩), 1, []⟩ ∧
    ZetsubouClient.make_request 3 (constResp 404) =
      ⟨.error (.notFound "boom" ⟨some "boom"⟩), 1, []⟩ ∧
    ZetsubouClient.make_request 3 (constResp 429) =
      ⟨.error (.rateLimit "boom" ⟨some "boom"⟩ 60), 1, []⟩ :=
  ⟨(claim_C2_client_errors_no_retry 3 (constResp 400)).1 rfl,
   (claim_C2_client_errors_no_retry 3 (constResp 401)).2.1 rfl,
   (claim_C2_client_errors_no_retry 3 (constResp 404)).2.2.1 rfl,
   (claim_C2_client_errors_no_retry 3 (constResp 429)).2.2.2 rfl⟩

/-- C3: on a 429 response the raised RateLimitError carries the Retry-After
    header value when the header is present and exactly 60 when it is
    absent, and the transport performs one attempt with no sleep. -/
theorem claim_C3_retry_after_header (ra : Nat) (resp : Nat → Response)
    (h429 : (resp 0).status = 429) :
    (∀ n : Int, (resp 0).retryAfter = some n →
      ZetsubouClient.make_request ra resp =
        ⟨.error (.rateLimit (getMsg (resp 0).errorData "Rate limit exceeded")
          (resp 0).errorData n), 1, []⟩) ∧
    ((resp 0).retryAfter = none →
      ZetsubouClient.make_request ra resp =
        ⟨.error (.rateLimit (getMsg (resp 0).errorData "Rate limit exceeded")
          (resp 0).errorData 60), 1, []⟩) := by
  refine ⟨fun n hn => ?_, fun hn => ?_⟩ <;>
    simp [ZetsubouClient.make_request, requestLoop, h429, hn]

theorem claim_C3_witness :
    ZetsubouClient.make_request 3 resp429hdr =
      ⟨.error (.rateLimit "slow down" ⟨some "slow down"⟩ 120), 1, []⟩ ∧
    ZetsubouClient.make_request 3 (constResp 429) =
      ⟨.error (.rateLimit "boom" ⟨some "boom"⟩ 60), 1, []⟩ :=
  ⟨(claim_C3_retry_after_header 3 resp429hdr rfl).1 120 rfl,
   (claim_C3_retry_after_header 3 (constResp 429) rfl).2 rfl⟩

/-- Python truthiness of an optional string: None and the empty string are
    falsy, every other string is truthy. -/
def pyTruthyStr : Option String → Bool
  | none => false
  | some s => if s = "" then false else true

/-- The Python expression a or b on two optional strings: b when a is falsy. -/
def pyOrOptStr (a b : Option String) : Option String :=
  if pyTruthyStr a then a else b

/-- Python truthiness of an optional list: None and the empty list are falsy. -/
def pyTruthyList (a : Option (List String)) : Bool :=
  match a with
  | none => false
  | some l => !l.isEmpty

/-- The Python expression data.get(k1) or data.get(k2, []): the first list
    when truthy, otherwise the second with default empty list. -/
def pyOrList (a b : Option (List String)) : List String :=
  if pyTruthyList a then a.getD [] else b.getD []

/-- Replace every occurrence of the character Z by the string +00:00,
    character-level model of the .replace call applied to timestamps. -/
def replZ : List Char → List Char
  | [] => []
  | c :: cs =>
    if c = 'Z' then '+' :: '0' :: '0' :: ':' :: '0' :: '0' :: replZ cs
    else c :: replZ cs

/-- The timestamp normalisation data.get(k).replace applied before
    datetime.fromisoformat; the datetime value is modelled by the
    normalised string itself. -/
def isoRepl (s : String) : String := String.mk (replZ s.data)

/-- Python f-string rendering of an Optional[str] value: None prints as
    the four-letter word None. -/
def pyStrOfOpt : Option String → String
  | some s => s
  | none => "None"

/-- The keyword arguments models.Job.from_dict may find in the response
    dict; a none field is an absent key.  Values are modelled at the types
    the SDK actually stores. -/
structure JobDict where
  id : Option String := none
  job_id : Option String := none
  tool_id : Option String := none
  tool : Option String := none
  status : Option String := none
  created_at : Option String := none
  updated_at : Option String := none
  completed_at : Option String := none
  progress : Option Int := none
  error : Option String := none
  inputs : Option (List String) := none
  input_files : Option (List String) := none
  outputs : Option (List String) := none
  output_files : Option (List String) := none
  options : Option (List (String × String)) := none
deriving Repr, DecidableEq

/-- The Job dataclass of models.py.  The id and tool_id fields are Option
    because the data.get(..) or data.get(..) fallback can produce None even
    though the dataclass annotation says str. -/
structure Job where
  id : Option String
  tool_id : Option String
  status : String
  created_at : String
  updated_at : Option String
  completed_at : Option String
  progress : Int
  error : Option String
  inputs : List String
  outputs : List String
  options : List (String × String)
deriving Repr, DecidableEq

/-- models.Job.from_dict.  The keyword arguments are evaluated left to
    right as in Python, so a missing status key raises KeyError before a
    missing created_at key does; all other keys fall back to defaults. -/
def Job.from_dict (d : JobDict) : Except String Job :=
  match d.status with
  | none => .error "KeyError: status"
  | some st =>
    match d.created_at with
    | none => .error "KeyError: created_at"
    | some ca =>
      .ok { id := pyOrOptStr d.id d.job_id
            tool_id := pyOrOptStr d.tool_id d.tool
            status := st
            created_at := isoRepl ca
            updated_at := if pyTruthyStr d.updated_at then d.updated_at.map isoRepl else none
            completed_at := if pyTruthyStr d.completed_at then d.completed_at.map isoRepl else none
            progress := d.progress.getD 0
            error := d.error
            inputs := pyOrList d.inputs d.input_files
            outputs := pyOrList d.outputs d.output_files
            options := d.options.getD [] }

instance : DecidableEq (Except SdkError Job) := fun a b =>
  match a, b with
  | .ok x, .ok y =>
    if h : x = y then .isTrue (by rw [h]) else .isFalse (by intro hc; cases hc; exact h rfl)
  | .error x, .error y =>
    if h : x = y then .isTrue (by rw [h]) else .isFalse (by intro hc; cases hc; exact h rfl)
  | .ok _, .error _ => .isFalse (by intro hc; cases hc)
  | .error _, .ok _ => .isFalse (by intro hc; cases hc)

/-- Result of one call to JobsService.wait_for_completion: the returned job
    or raised exception, the number of job fetches performed, the trace of
    poll sleeps, and the wall-clock time elapsed when the call ends. -/
structure WaitOutcome where
  result : Except SdkError Job
  fetches : Nat
  sleeps : List Int
  elapsed : Int
deriving DecidableEq

/-- The while-loop of JobsService.wait_for_completion.  fetch n is the job
    returned by the n-th self.get call, fetchDur n the wall-clock seconds
    that call consumes, elapsed the wall-clock time since start; sleeping
    advances the clock by exactly poll_interval.  none means the fuel ran
    out before the loop finished, so every theorem below exhibits enough
    fuel. -/
def waitGo (fetch : Nat → Job) (fetchDur : Nat → Nat) (job_id : String)
    (timeout poll_interval : Int) : Nat → Nat → Int → Option WaitOutcome
  | 0, _, _ => none
  | fuel + 1, i, elapsed =>
    if elapsed < timeout then
      let job := fetch i
      let e2 := elapsed + fetchDur i
      if job.status = "completed" then
        some ⟨.ok job, 1, [], e2⟩
      else if job.status = "failed" then
        some ⟨.error (.zetsubou ("Job " ++ job_id ++ " failed: " ++ pyStrOfOpt job.error) none),
              1, [], e2⟩
      else if job.status = "cancelled" then
        some ⟨.error (.zetsubou ("Job " ++ job_id ++ " was cancelled") none), 1, [], e2⟩
      else
        match waitGo fetch fetchDur job_id timeout poll_interval fuel (i + 1) (e2 + poll_interval) with
        | none => none
        | some rest =>
          some ⟨rest.result, rest.fetches + 1, poll_interval :: rest.sleeps, rest.elapsed⟩
    else
      some ⟨.error (.zetsubou ("Job " ++ job_id ++ " timed out after " ++ toString timeout ++
              " seconds") none), 0, [], elapsed⟩

/-- JobsService.wait_for_completion: run the polling loop from fetch index
    0 at elapsed time 0. -/
def JobsService.wait_for_completion (fetch : Nat → Job) (fetchDur : Nat → Nat) (job_id : String)
    (timeout poll_interval : Int) (fuel : Nat) : Option WaitOutcome :=
  waitGo fetch fetchDur job_id timeout poll_interval fuel 0 0

/-- The exception message raised when wait_for_completion times out. -/
def timeoutErr (job_id : String) (timeout : Int) : SdkError :=
  .zetsubou ("Job " ++ job_id ++ " timed out after " ++ toString timeout ++ " seconds") none

theorem waitGo_timeout_branch (fetch : Nat → Job) (fetchDur : Nat → Nat) (job_id : String)
    (timeout poll_interval : Int) (fuel i : Nat) (elapsed : Int)
    (h : ¬ elapsed < timeout) :
    waitGo fetch fetchDur job_id timeout poll_interval (fuel + 1) i elapsed =
      some ⟨.error (timeoutErr job_id timeout), 0, [], elapsed⟩ := by
  simp only [waitGo]
  rw [if_neg h]
  rfl

theorem waitGo_completed (fetch : Nat → Job) (fetchDur : Nat → Nat) (job_id : String)
    (timeout poll_interval : Int) (fuel i : Nat) (elapsed : Int)
    (h : elapsed < timeout) (hc : (fetch i).status = "completed") :
    waitGo fetch fetchDur job_id timeout poll_interval (fuel + 1) i elapsed =
      some ⟨.ok (fetch i), 1, [], elapsed + fetchDur i⟩ := by
  simp only [waitGo]
  rw [if_pos h, if_pos hc]

theorem waitGo_failed (fetch : Nat → Job) (fetchDur : Nat → Nat) (job_id : String)
    (timeout poll_interval : Int) (fuel i : Nat) (elapsed : Int)
    (h : elapsed < timeout) (hf : (fetch i).status = "failed") :
    waitGo fetch fetchDur job_id timeout poll_interval (fuel + 1) i elapsed =
      some ⟨.error (.zetsubou ("Job " ++ job_id ++ " failed: " ++ pyStrOfOpt (fetch i).error) none),
            1, [], elapsed + fetchDur i⟩ := by
  simp only [waitGo]
  rw [if_pos h, if_neg (by rw [hf]; decide), if_pos hf]

theorem waitGo_cancelled (fetch : Nat → Job) (fetchDur : Nat → Nat) (job_id : String)
    (timeout poll_interval : Int) (fuel i : Nat) (elapsed : Int)
    (h : elapsed < timeout) (hc : (fetch i).status = "cancelled") :
    waitGo fetch fetchDur job_id timeout poll_interval (fuel + 1) i elapsed =
      some ⟨.error (.zetsubou ("Job " ++ job_id ++ " was cancelled") none),
            1, [], elapsed + fetchDur i⟩ := by
  simp only [waitGo]
  rw [if_pos h, if_neg (by rw [hc]; decide), if_neg (by rw [hc]; decide), if_pos hc]

theorem waitGo_poll (fetch : Nat → Job) (fetchDur : Nat → Nat) (job_id : String)
    (timeout poll_interval : Int) (fuel i : Nat) (elapsed : Int)
    (h : elapsed < timeout) (h1 : (fetch i).status ≠ "completed")
    (h2 : (fetch i).status ≠ "failed") (h3 : (fetch i).status ≠ "cancelled") :
    waitGo fetch fetchDur job_id timeout poll_interval (fuel + 1) i elapsed =
      match waitGo fetch fetchDur job_id timeout poll_interval fuel (i + 1)
              (elapsed + fetchDur i + poll_interval) with
      | none => none
      | some rest =>
        some ⟨rest.result, rest.fetches + 1, poll_interval :: rest.sleeps, rest.elapsed⟩ := by
  simp only [waitGo]
  rw [if_pos h, if_neg h1, if_neg h2, if_neg h3]

/-- C10: with a non-positive timeout, wait_for_completion raises the
    timeout error immediately: the elapsed-time check precedes the first
    fetch, so no job fetch and no sleep happens and the elapsed time at the
    raise is 0. -/
theorem claim_C10_nonpositive_timeout (fetch : Nat → Job) (fetchDur : Nat → Nat)
    (job_id : String) (timeout poll_interval : Int) (fuel : Nat)
    (h : timeout ≤ 0) :
    JobsService.wait_for_completion fetch fetchDur job_id timeout poll_interval (fuel + 1) =
      some ⟨.error (timeoutErr job_id timeout), 0, [], 0⟩ :=
  waitGo_timeout_branch fetch fetchDur job_id timeout poll_interval fuel 0 0 (by omega)

/-- A pending job used as a concrete polling source. -/
def jobPending : Job :=
  ⟨some "j1", some "t1", "pending", "2024-01-01T00:00:00+00:00", none, none, 0, none, [], [], []⟩

/-- A completed job used as a concrete polling source. -/
def jobCompleted : Job :=
  ⟨some "j1", some "t1", "completed", "2024-01-01T00:00:00+00:00", none, none, 100, none, [], [], []⟩

/-- A failed job carrying an error detail. -/
def jobFailed : Job :=
  ⟨some "j1", some "t1", "failed", "2024-01-01T00:00:00+00:00", none, none, 10,
   some "disk full", [], [], []⟩

/-- A cancelled job. -/
def jobCancelled : Job :=
  ⟨some "j1", some "t1", "cancelled", "2024-01-01T00:00:00+00:00", none, none, 10, none, [], [], []⟩

/-- Fetch source that is pending on the first two fetches and completed on
    the third. -/
def fetchPPC : Nat → Job := fun n => if n < 2 then jobPending else jobCompleted

theorem claim_C10_witness :
    JobsService.wait_for_completion (fun _ => jobPending) (fun _ => 0) "j1" 0 5 1 =
      some ⟨.error (timeoutErr "j1" 0), 0, [], 0⟩ :=
  claim_C10_nonpositive_timeout (fun _ => jobPending) (fun _ => 0) "j1" 0 5 0 (by decide)

/-- C4: when fetches take negligible time, a pending, pending, completed
    status sequence makes wait_for_completion perform exactly 3 fetches and
    2 sleeps of poll_interval each and return the completed job; a failed
    first status raises immediately with the error field of the job in the
    message, with no further fetch and no sleep, and a cancelled first
    status likewise raises immediately. -/
theorem claim_C4_poll_sequence (fetch : Nat → Job) (fetchDur : Nat → Nat) (job_id : String)
    (timeout poll_interval : Int) (f : Nat) :
    ((fetch 0).status = "pending" → (fetch 1).status = "pending" →
     (fetch 2).status = "completed" →
     fetchDur 0 = 0 → fetchDur 1 = 0 → fetchDur 2 = 0 →
     0 ≤ poll_interval → 2 * poll_interval < timeout →
      JobsService.wait_for_completion fetch fetchDur job_id timeout poll_interval (f + 1 + 1 + 1) =
        some ⟨.ok (fetch 2), 3, [poll_interval, poll_interval], 2 * poll_interval⟩) ∧
    ((fetch 0).status = "failed" → 0 < timeout →
      JobsService.wait_for_completion fetch fetchDur job_id timeout poll_interval (f + 1) =
        some ⟨.error (.zetsubou ("Job " ++ job_id ++ " failed: " ++ pyStrOfOpt (fetch 0).error)
                none), 1, [], (fetchDur 0 : Int)⟩) ∧
    ((fetch 0).status = "cancelled" → 0 < timeout →
      JobsService.wait_for_completion fetch fetchDur job_id timeout poll_interval (f + 1) =
        some ⟨.error (.zetsubou ("Job " ++ job_id ++ " was cancelled") none),
              1, [], (fetchDur 0 : Int)⟩) := by
  refine ⟨?_, ?_, ?_⟩
  · intro h0 h1 h2 hd0 hd1 hd2 hpi ht
    rw [JobsService.wait_for_completion]
    rw [waitGo_poll fetch fetchDur job_id timeout poll_interval (f + 1 + 1) 0 0 (by omega)
        (by rw [h0]; decide) (by rw [h0]; decide) (by rw [h0]; decide)]
    rw [waitGo_poll fetch fetchDur job_id timeout poll_interval (f + 1) 1 _ (by omega)
        (by rw [h1]; decide) (by rw [h1]; decide) (by rw [h1]; decide)]
    rw [waitGo_completed fetch fetchDur job_id timeout poll_interval f 2 _ (by omega) h2]
    simp only [Option.some.injEq, WaitOutcome.mk.injEq, and_true, true_and, eq_self_iff_true]
    omega
  · intro hf hpos
    have h := waitGo_failed fetch fetchDur job_id timeout poll_interval f 0 0 (by omega) hf
    rw [JobsService.wait_for_completion, h]
    simp
  · intro hc hpos
    have h := waitGo_cancelled fetch fetchDur job_id timeout poll_interval f 0 0 (by omega) hc
    rw [JobsService.wait_for_completion, h]
    simp

theorem claim_C4_witness :
    JobsService.wait_for_completion fetchPPC (fun _ => 0) "j1" 3600 5 3 =
      some ⟨.ok jobCompleted, 3, [5, 5], 10⟩ ∧
    JobsService.wait_for_completion (fun _ => jobFailed) (fun _ => 0) "j1" 3600 5 1 =
      some ⟨.error (.zetsubou "Job j1 failed: disk full" none), 1, [], 0⟩ ∧
    JobsService.wait_for_completion (fun _ => jobCancelled) (fun _ => 0) "j1" 3600 5 1 =
      some ⟨.error (.zetsubou "Job j1 was cancelled" none), 1, [], 0⟩ :=
  ⟨(claim_C4_poll_sequence fetchPPC (fun _ => 0) "j1" 3600 5 0).1
      rfl rfl rfl rfl rfl rfl (by decide) (by decide),
   (claim_C4_poll_sequence (fun _ => jobFailed) (fun _ => 0) "j1" 3600 5 0).2.1
      rfl (by decide),
   (claim_C4_poll_sequence (fun _ => jobCancelled) (fun _ => 0) "j1" 3600 5 0).2.2
      rfl (by decide)⟩

theorem waitGo_times_out (fetch : Nat → Job) (fetchDur : Nat → Nat) (job_id : String)
    (timeout poll_interval : Int)
    (hterm : ∀ n, (fetch n).status ≠ "completed" ∧ (fetch n).status ≠ "failed" ∧
      (fetch n).status ≠ "cancelled")
    (hpi : 1 ≤ poll_interval) :
    ∀ (f i : Nat) (elapsed : Int), timeout ≤ elapsed + (f : Int) →
      ∃ out, waitGo fetch fetchDur job_id timeout poll_interval (f + 1) i elapsed = some out ∧
        out.result = .error (timeoutErr job_id timeout) ∧ timeout ≤ out.elapsed := by
  intro f
  induction f with
  | zero =>
    intro i elapsed hle
    exact ⟨⟨.error (timeoutErr job_id timeout), 0, [], elapsed⟩,
      waitGo_timeout_branch fetch fetchDur job_id timeout poll_interval 0 i elapsed (by omega),
      rfl, by show timeout ≤ elapsed; omega⟩
  | succ f ih =>
    intro i elapsed hle
    by_cases hE : elapsed < timeout
    · obtain ⟨out, heq, hres, hel⟩ :=
        ih (i + 1) (elapsed + fetchDur i + poll_interval) (by omega)
      refine ⟨⟨out.result, out.fetches + 1, poll_interval :: out.sleeps, out.elapsed⟩,
        ?_, hres, hel⟩
      rw [waitGo_poll fetch fetchDur job_id timeout poll_interval (f + 1) i elapsed hE
            (hterm i).1 (hterm i).2.1 (hterm i).2.2, heq]
    · exact ⟨⟨.error (timeoutErr job_id timeout), 0, [], elapsed⟩,
        waitGo_timeout_branch fetch fetchDur job_id timeout poll_interval (f + 1) i elapsed hE,
        rfl, by show timeout ≤ elapsed; omega⟩

/-- C5: when no fetch ever returns a terminal status and poll_interval is
    at least one second, wait_for_completion raises the timeout error, and
    the wall-clock time elapsed at the raise is at least the configured
    timeout; moreover the timeout is enforced against the clock rather than
    an iteration count: a single fetch slow enough to consume the whole
    budget makes the loop stop after exactly one fetch. -/
theorem claim_C5_timeout_wall_clock (fetch : Nat → Job) (fetchDur : Nat → Nat) (job_id : String)
    (timeout poll_interval : Int)
    (hterm : ∀ n, (fetch n).status ≠ "completed" ∧ (fetch n).status ≠ "failed" ∧
      (fetch n).status ≠ "cancelled")
    (hpi : 1 ≤ poll_interval) :
    ∃ out, JobsService.wait_for_completion fetch fetchDur job_id timeout poll_interval
        (timeout.toNat + 1) = some out ∧
      out.result = .error (timeoutErr job_id timeout) ∧
      timeout ≤ out.elapsed ∧
      (0 < timeout → timeout ≤ (fetchDur 0 : Int) + poll_interval → out.fetches = 1) := by
  obtain ⟨out, heq, hres, hel⟩ :=
    waitGo_times_out fetch fetchDur job_id timeout poll_interval hterm hpi
      timeout.toNat 0 0 (by have := Int.self_le_toNat timeout; omega)
  refine ⟨out, heq, hres, hel, ?_⟩
  intro hpos hslow
  obtain ⟨t, ht⟩ : ∃ t, timeout.toNat = t + 1 := ⟨timeout.toNat - 1, by omega⟩
  have hrun : waitGo fetch fetchDur job_id timeout poll_interval (timeout.toNat + 1) 0 0 =
      some ⟨.error (timeoutErr job_id timeout), 1, [poll_interval],
            0 + (fetchDur 0 : Int) + poll_interval⟩ := by
    rw [ht]
    rw [waitGo_poll fetch fetchDur job_id timeout poll_interval (t + 1) 0 0 hpos
          (hterm 0).1 (hterm 0).2.1 (hterm 0).2.2]
    rw [waitGo_timeout_branch fetch fetchDur job_id timeout poll_interval t 1 _ (by omega)]
  have hsome := heq
  simp only [JobsService.wait_for_completion] at hsome
  rw [hrun] at hsome
  have hout : out = ⟨.error (timeoutErr job_id timeout), 1, [poll_interval],
      0 + (fetchDur 0 : Int) + poll_interval⟩ := (Option.some.inj hsome).symm
  rw [hout]

/-- A job that stays in the running status forever. -/
def jobRunning : Job :=
  ⟨some "j1", some "t1", "running", "2024-01-01T00:00:00+00:00", none, none, 50, none, [], [], []⟩

theorem claim_C5_witness :
    ∃ out, JobsService.wait_for_completion (fun _ => jobRunning) (fun _ => 0) "j1" 7 5 8 =
        some out ∧
      out.result = .error (timeoutErr "j1" 7) ∧
      (7 : Int) ≤ out.elapsed ∧
      ((0 : Int) < 7 → (7 : Int) ≤ ((0 : Nat) : Int) + 5 → out.fetches = 1) :=
  claim_C5_timeout_wall_clock (fun _ => jobRunning) (fun _ => 0) "j1" 7 5
    (fun _ => ⟨(by decide : jobRunning.status ≠ "completed"),
               (by decide : jobRunning.status ≠ "failed"),
               (by decide : jobRunning.status ≠ "cancelled")⟩) (by decide)

/-- C6: a response dict that has the required fields but is missing
    updated_at and completed_at parses without raising into a Job whose
    updated_at and completed_at are None, and a missing progress key yields
    progress 0 while a missing options key yields an empty map. -/
theorem claim_C6_job_optional_defaults (d : JobDict) (st ca : String)
    (hst : d.status = some st) (hca : d.created_at = some ca)
    (hu : d.updated_at = none) (hc : d.completed_at = none)
    (hp : d.progress = none) (ho : d.options = none) :
    ∃ j, Job.from_dict d = .ok j ∧
      j.updated_at = none ∧ j.completed_at = none ∧ j.progress = 0 ∧ j.options = [] := by
  refine ⟨⟨pyOrOptStr d.id d.job_id, pyOrOptStr d.tool_id d.tool, st, isoRepl ca,
           none, none, 0, d.error, pyOrList d.inputs d.input_files,
           pyOrList d.outputs d.output_files, []⟩, ?_, rfl, rfl, rfl, rfl⟩
  simp [Job.from_dict, hst, hca, hu, hc, hp, ho, pyTruthyStr]

/-- A minimal job response dict carrying only the keys the constructor
    insists on. -/
def dictMinimal : JobDict :=
  { status := some "pending", created_at := some "2024-01-01T00:00:00Z" }

theorem claim_C6_witness :
    ∃ j, Job.from_dict dictMinimal = .ok j ∧
      j.updated_at = none ∧ j.completed_at = none ∧ j.progress = 0 ∧ j.options = [] :=
  claim_C6_job_optional_defaults dictMinimal "pending" "2024-01-01T00:00:00Z"
    rfl rfl rfl rfl rfl rfl

/-- A job response dict with status and created_at present but both
    identity keys id and job_id absent. -/
def dictNoIdentity : JobDict :=
  { status := some "running", created_at := some "2024-02-02T00:00:00Z" }

theorem claim_C7_counterexample :
    dictNoIdentity.id = none ∧ dictNoIdentity.job_id = none ∧
    ∃ j, Job.from_dict dictNoIdentity = .ok j ∧ j.id = none := by
  exact ⟨rfl, rfl,
    ⟨none, none, "running", "2024-02-02T00:00:00+00:00", none, none, 0, none, [], [], []⟩,
    rfl, rfl⟩

/-- C7 amended: absence of the status key or of the created_at key is a
    parse failure; absence of both identity keys id and job_id is not a
    failure and instead yields a record whose id field is None; every other
    absent field maps deterministically to its documented default. -/
theorem claim_C7_required_fields (d : JobDict) :
    (d.status = none → Job.from_dict d = .error "KeyError: status") ∧
    (∀ st, d.status = some st → d.created_at = none →
      Job.from_dict d = .error "KeyError: created_at") ∧
    (∀ st ca, d.status = some st → d.created_at = some ca →
      ∃ j, Job.from_dict d = .ok j ∧
        j.id = pyOrOptStr d.id d.job_id ∧
        j.progress = d.progress.getD 0 ∧
        j.options = d.options.getD [] ∧
        j.error = d.error ∧
        j.inputs = pyOrList d.inputs d.input_files ∧
        j.outputs = pyOrList d.outputs d.output_files) := by
  refine ⟨fun h => ?_, fun st h1 h2 => ?_, fun st ca h1 h2 => ?_⟩
  · simp [Job.from_dict, h]
  · simp [Job.from_dict, h1, h2]
  · refine ⟨⟨pyOrOptStr d.id d.job_id, pyOrOptStr d.tool_id d.tool, st, isoRepl ca,
             if pyTruthyStr d.updated_at then d.updated_at.map isoRepl else none,
             if pyTruthyStr d.completed_at then d.completed_at.map isoRepl else none,
             d.progress.getD 0, d.error, pyOrList d.inputs d.input_files,
             pyOrList d.outputs d.output_files, d.options.getD []⟩,
      ?_, rfl, rfl, rfl, rfl, rfl, rfl⟩
    simp [Job.from_dict, h1, h2]

theorem claim_C7_witness :
    Job.from_dict { } = .error "KeyError: status" ∧
    Job.from_dict { status := some "pending" } = .error "KeyError: created_at" ∧
    ∃ j, Job.from_dict dictMinimal = .ok j ∧
      j.id = pyOrOptStr dictMinimal.id dictMinimal.job_id ∧
      j.progress = dictMinimal.progress.getD 0 ∧
      j.options = dictMinimal.options.getD [] ∧
      j.error = dictMinimal.error ∧
      j.inputs = pyOrList dictMinimal.inputs dictMinimal.input_files ∧
      j.outputs = pyOrList dictMinimal.outputs dictMinimal.output_files :=
  ⟨(claim_C7_required_fields { }).1 rfl,
   (claim_C7_required_fields { status := some "pending" }).2.1 "pending" rfl rfl,
   (claim_C7_required_fields dictMinimal).2.2 "pending" "2024-01-01T00:00:00Z" rfl rfl⟩

/-- An input to ToolsService.execute: a filesystem path string or an
    already-open file-like object, the latter modelled by an opaque tag. -/
inductive FileInput where
  | path (p : String)
  | stream (tag : Nat)
deriving Repr, DecidableEq

/-- A value stored in the file_data dict handed to the transport: either
    the tuple of the name attribute of the opened file and its full
    contents, or the file-like object passed through unchanged. -/
inductive UploadPart where
  | tuple (filename : String) (content : List Nat)
  | fileObj (tag : Nat)
deriving Repr, DecidableEq

/-- One iteration of the upload loop: a path is opened and read fully,
    and the name attribute of the opened file is the path exactly as
    passed to open; a file-like object is stored as is.  fs maps a path to
    the bytes of the file behind it. -/
def mkPart (fs : String → List Nat) : FileInput → UploadPart
  | .path p => .tuple p (fs p)
  | .stream t => .fileObj t

/-- The file_data dict built by ToolsService.execute, in insertion order:
    files are keyed file_i and audio files audio_i by enumerate index. -/
def ToolsService.executeFileData (fs : String → List Nat)
    (files audio_files : List FileInput) : List (String × UploadPart) :=
  (files.enum.map (fun pr => ("file_" ++ toString pr.1, mkPart fs pr.2))) ++
  (audio_files.enum.map (fun pr => ("audio_" ++ toString pr.1, mkPart fs pr.2)))

/-- The base filename of a path: everything after the last slash. -/
def afterSlash : List Char → List Char → List Char
  | acc, [] => acc.reverse
  | acc, c :: cs => if c = '/' then afterSlash [] cs else afterSlash (c :: acc) cs

/-- Base filename of a path string, the part the claim says is used as the
    attachment filename. -/
def baseName (s : String) : String := String.mk (afterSlash [] s.data)

theorem claim_C8_counterexample :
    ToolsService.executeFileData (fun _ => [7, 7]) [.path "subdir/a.png"] [] =
      [("file_0", .tuple "subdir/a.png" [7, 7])] ∧
    baseName "subdir/a.png" = "a.png" ∧
    ("subdir/a.png" : String) ≠ "a.png" :=
  ⟨rfl, by decide, by decide⟩

/-- C8 amended: each path input is read fully into memory and paired with
    the path string exactly as passed (which equals the base filename only
    when the path has no directory part), and attachments are named
    positionally file_0, file_1, ... for files and audio_0, audio_1, ...
    for audio files, in input-list order. -/
theorem claim_C8_upload_naming (fs : String → List Nat)
    (files audio_files : List FileInput) :
    (ToolsService.executeFileData fs files audio_files).length =
      files.length + audio_files.length ∧
    (∀ (i : Nat) (p : String), files[i]? = some (FileInput.path p) →
      (ToolsService.executeFileData fs files audio_files)[i]? =
        some ("file_" ++ toString i, UploadPart.tuple p (fs p))) ∧
    (∀ (i : Nat) (p : String), audio_files[i]? = some (FileInput.path p) →
      (ToolsService.executeFileData fs files audio_files)[files.length + i]? =
        some ("audio_" ++ toString i, UploadPart.tuple p (fs p))) := by
  refine ⟨by simp [ToolsService.executeFileData, List.enum_length], ?_, ?_⟩
  · intro i p hp
    have hi : i < files.length := (List.getElem?_eq_some.mp hp).1
    simp only [ToolsService.executeFileData]
    rw [List.getElem?_append_left (by simp [List.enum_length]; exact hi)]
    rw [List.getElem?_map, List.getElem?_enum, hp]
    rfl
  · intro i p hp
    simp only [ToolsService.executeFileData]
    rw [List.getElem?_append_right (by simp [List.enum_length])]
    rw [show ((files.enum.map
          (fun pr => ("file_" ++ toString pr.1, mkPart fs pr.2))).length) = files.length
        from by simp [List.enum_length]]
    rw [Nat.add_sub_cancel_left]
    rw [List.getElem?_map, List.getElem?_enum, hp]
    rfl

theorem claim_C8_witness :
    (ToolsService.executeFileData (fun _ => [7, 7]) [.path "a.png", .stream 9]
        [.path "b.wav"]).length = 3 ∧
    (ToolsService.executeFileData (fun _ => [7, 7]) [.path "a.png", .stream 9]
        [.path "b.wav"])[0]? = some ("file_0", .tuple "a.png" [7, 7]) ∧
    (ToolsService.executeFileData (fun _ => [7, 7]) [.path "a.png", .stream 9]
        [.path "b.wav"])[2]? = some ("audio_0", .tuple "b.wav" [7, 7]) :=
  ⟨(claim_C8_upload_naming (fun _ => [7, 7]) [.path "a.png", .stream 9] [.path "b.wav"]).1,
   (claim_C8_upload_naming (fun _ => [7, 7]) [.path "a.png", .stream 9] [.path "b.wav"]).2.1
     0 "a.png" rfl,
   (claim_C8_upload_naming (fun _ => [7, 7]) [.path "a.png", .stream 9] [.path "b.wav"]).2.2
     0 "b.wav" rfl⟩

/-- One entry of the errors array of a GraphQL response; the message key
    may be absent. -/
structure GqlError where
  message : Option String
deriving Repr, DecidableEq

/-- What GraphQLService.query reads from the parsed response body: the
    errors array when the key is present, and the rest of the body kept
    opaque. -/
structure GqlResponse where
  errors : Option (List GqlError) := none
  body : List (String × String) := []
deriving Repr, DecidableEq

/-- The error check of GraphQLService.query on the parsed response: a
    present and non-empty errors array raises, otherwise the whole parsed
    dict is returned. -/
def GraphQLService.query (resp : GqlResponse) : Except SdkError GqlResponse :=
  match resp.errors with
  | some l =>
    if l.isEmpty then .ok resp
    else
      .error (.zetsubou ("GraphQL errors: " ++
        String.intercalate "; " (l.map (fun e => e.message.getD "Unknown error"))) none)
  | none => .ok resp

/-- What NFTService.list_projects reads from the parsed response body. -/
structure NftListResponse where
  success : Option Bool := none
  error : Option String := none
  projects : Option (List String) := none
deriving Repr, DecidableEq

/-- Python truthiness of an optional boolean: None and False are falsy. -/
def pyTruthyOptBool : Option Bool → Bool
  | none => false
  | some b => b

/-- The success check of NFTService.list_projects on the parsed body of a
    200 response; projects are kept opaque. -/
def NFTService.list_projects (resp : NftListResponse) : Except SdkError (List String) :=
  if pyTruthyOptBool resp.success then .ok (resp.projects.getD [])
  else .error (.zetsubou (resp.error.getD "Failed to list projects") none)

/-- A GraphQL response with two errors. -/
def gqlTwoErrors : GqlResponse := { errors := some [⟨some "a"⟩, ⟨some "b"⟩] }

theorem claim_C9_counterexample :
    GraphQLService.query gqlTwoErrors = .error (.zetsubou "GraphQL errors: a; b" none) ∧
    String.intercalate ";" ["a", "b"] = "a;b" ∧
    ("GraphQL errors: a; b" : String) ≠ "a;b" :=
  ⟨rfl, by decide, by decide⟩

/-- C9 amended: a GraphQL response with a present non-empty errors array
    raises a failure whose message is the fixed prefix GraphQL errors:
    followed by the concatenation of all errors[].message values joined by
    a semicolon and a space, in response order, with Unknown error standing
    in for an absent message key; and a success false NFT-endpoint body
    raises a failure carrying the embedded error string. -/
theorem claim_C9_service_error_messages :
    (∀ (resp : GqlResponse) (e : GqlError) (l : List GqlError),
      resp.errors = some (e :: l) →
      GraphQLService.query resp = .error (.zetsubou ("GraphQL errors: " ++
        String.intercalate "; " ((e :: l).map (fun x => x.message.getD "Unknown error")))
        none)) ∧
    (∀ (resp : NftListResponse) (e : String),
      resp.success = some false → resp.error = some e →
      NFTService.list_projects resp = .error (.zetsubou e none)) := by
  constructor
  · intro resp e l h
    simp [GraphQLService.query, h]
  · intro resp e hs he
    simp [NFTService.list_projects, hs, he, pyTruthyOptBool]

theorem claim_C9_witness :
    GraphQLService.query { errors := some [⟨some "x"⟩, ⟨none⟩] } =
      .error (.zetsubou "GraphQL errors: x; Unknown error" none) ∧
    NFTService.list_projects { success := some false, error := some "nope" } =
      .error (.zetsubou "nope" none) :=
  ⟨by
    have h := claim_C9_service_error_messages.1 { errors := some [⟨some "x"⟩, ⟨none⟩] }
      ⟨some "x"⟩ [⟨none⟩] rfl
    exact h,
   claim_C9_service_error_messages.2 { success := some false, error := some "nope" }
     "nope" rfl rfl⟩

end Zetsubou
